import Mathlib

/-!
Verification of the `arc_ball_camera` example (`src/examples/arc_ball_camera/main.rs`).

The original logic of the example consists of two pieces:

* `CameraDistanceSystem::run` — drains input events from a shared event
  channel via a persistent reader cursor and, for every mouse-wheel event,
  multiplies the `distance` field of every entity possessing both a
  `Transform` and an `ArcBallControlTag` by `0.9` (scroll-up) or `1.1`
  (scroll-down).
* `ExampleGraph` — a `GraphCreator` whose `rebuild` decides whether the
  render graph must be rebuilt (on surface-dimension changes, settling over
  two frames) and whose `builder` constructs the two-pass render graph.

The embedding below translates these directly.  Rust `Float` values
(the distance, clear colors, skybox tints) are modelled as exact rationals
`ℚ`; Rust panics (`Option::unwrap`, `ReadExpect::fetch`) are modelled as
`Except.error`.
-/

/-- Scroll direction of a mouse-wheel event (`amethyst::input::ScrollDirection`). -/
inductive ScrollDirection
  | ScrollUp
  | ScrollDown
  | ScrollLeft
  | ScrollRight
deriving DecidableEq, Repr

/-- Input events (`amethyst::input::InputEvent`).  Only `MouseWheelMoved`
carries data the camera-distance system inspects; the remaining variants of
the Rust enum are represented by payload-free constructors, all of which the
system ignores. -/
inductive InputEvent
  | KeyPressed
  | KeyReleased
  | ButtonPressed
  | ButtonReleased
  | MouseMoved
  | MouseWheelMoved (direction : ScrollDirection)
  | ActionPressed
deriving DecidableEq, Repr

/-- Embeds `amethyst::controls::ArcBallControlTag`: the orbit-camera control tag with
its look-at `target` entity (an id) and mutable orbit `distance`. -/
structure ArcBallControlTag where
  target : ℕ
  distance : ℚ
deriving DecidableEq, Repr

/-- One entity of the component-storage world, as seen by the system's join
`(&transforms, &mut tags)`: an optional `Transform` component (whose spatial
payload the system never reads, so it is opaque) and an optional
`ArcBallControlTag` component. -/
structure Entity where
  transform : Option Unit
  tag : Option ArcBallControlTag
deriving DecidableEq, Repr

/-- The event channel (`EventChannel<InputEvent<AC>>`): the append-only list
of all events published so far. -/
structure EventChannel where
  events : List InputEvent
deriving DecidableEq, Repr

/-- Embeds `CameraDistanceSystem`: holds the optional reader cursor into the event
channel (`event_reader: Option<ReaderId<...>>`), modelled as the index of the
first unread event. -/
structure CameraDistanceSystem where
  event_reader : Option ℕ
deriving DecidableEq, Repr

/-- Embeds `CameraDistanceSystem::new()`. -/
def CameraDistanceSystem.new : CameraDistanceSystem := ⟨none⟩

/-- The effect of one `(&transforms, &mut tags).join()` body on one entity:
entities possessing both components have their tag's `distance` multiplied by
`q`; all others are untouched. -/
def scaleEntity (q : ℚ) (e : Entity) : Entity :=
  match e.transform, e.tag with
  | some _, some t => { e with tag := some { t with distance := t.distance * q } }
  | _, _ => e

/-- The effect of one scroll event's inner loop on the whole world. -/
def scaleWorld (q : ℚ) (w : List Entity) : List Entity :=
  w.map (scaleEntity q)

/-- The `match *event` body of `CameraDistanceSystem::run` for one drained
event: scroll-up multiplies every matching entity's distance by `0.9`,
scroll-down by `1.1`, every other event (and scroll left/right) is ignored. -/
def processEvent (ev : InputEvent) (w : List Entity) : List Entity :=
  match ev with
  | .MouseWheelMoved .ScrollUp => scaleWorld (9/10) w
  | .MouseWheelMoved .ScrollDown => scaleWorld (11/10) w
  | .MouseWheelMoved _ => w
  | _ => w

/-- Embeds `CameraDistanceSystem::run`: drains all events published since the
cursor's position (advancing the cursor to the end of the channel) and folds
`processEvent` over them in publication order.  An uninitialized cursor is
the `self.event_reader.as_mut().unwrap()` panic, modelled as `Except.error`. -/
def CameraDistanceSystem.run (sys : CameraDistanceSystem) (ch : EventChannel)
    (w : List Entity) : Except String (CameraDistanceSystem × List Entity) :=
  match sys.event_reader with
  | none => .error "called Option::unwrap on a None value"
  | some idx =>
      let drained := ch.events.drop idx
      .ok (⟨some ch.events.length⟩, drained.foldl (fun acc ev => processEvent ev acc) w)

/-- Embeds `amethyst::window::ScreenDimensions`, restricted to the fields the
policy's `PartialEq` comparison is about: pixel width and height. -/
structure ScreenDimensions where
  width : ℕ
  height : ℕ
deriving DecidableEq, Repr

/-- Pixel formats (`rendy::hal::format::Format`), restricted to the ones this
example can mention: the depth format `D32Sfloat` and surface color formats. -/
inductive Format
  | D32Sfloat
  | Rgba8Srgb
  | Bgra8Srgb
deriving DecidableEq, Repr

/-- Embeds `ExampleGraph`: the render-graph policy state. -/
structure ExampleGraph where
  last_dimensions : Option ScreenDimensions
  surface_format : Option Format
  dirty : Bool
deriving DecidableEq, Repr

/-- Embeds `ExampleGraph::new()`. -/
def ExampleGraph.new : ExampleGraph :=
  { last_dimensions := none, surface_format := none, dirty := true }

/-- Embeds `ExampleGraph::rebuild`: the per-frame rebuild check.  The argument
`new_dimensions` is the result of `res.try_fetch::<ScreenDimensions>()`
(`none` when the resource is unavailable).  Returns the updated policy state
together with the reported boolean. -/
def ExampleGraph.rebuild (g : ExampleGraph) (new_dimensions : Option ScreenDimensions) :
    ExampleGraph × Bool :=
  if g.last_dimensions ≠ new_dimensions then
    ({ g with dirty := true, last_dimensions := new_dimensions }, false)
  else
    (g, g.dirty)

/-- Feeding `rebuild` a sequence of fetched dimensions, collecting the
reported booleans. -/
def rebuildSeq (g : ExampleGraph) : List (Option ScreenDimensions) → List Bool
  | [] => []
  | d :: ds =>
      let r := g.rebuild d
      r.2 :: rebuildSeq r.1 ds

/-- Iterating the rebuild check `n` times on the same fetched dimensions,
returning the final policy state. -/
def rebuildIter (nd : Option ScreenDimensions) : ℕ → ExampleGraph → ExampleGraph
  | 0, g => g
  | n + 1, g => rebuildIter nd n (g.rebuild nd).1

/-- Clear values for image resources (`rendy::hal::command::ClearValue`):
a color clear (components as exact rationals) or a depth/stencil clear. -/
inductive ClearValue
  | Color (r g b a : ℚ)
  | DepthStencil (depth : ℚ) (stencil : ℕ)
deriving DecidableEq, Repr

/-- An image resource declared on the graph builder
(`GraphBuilder::create_image(kind, levels, format, clear)`).  The surface
`kind` (extent/sample description) is opaque to this example, so it is kept
as an abstract identifier. -/
structure ImageDesc where
  kind : ℕ
  levels : ℕ
  format : Format
  clear : Option ClearValue
deriving DecidableEq, Repr

/-- The draw groups this example attaches to its subpass:
`DrawShadedDesc::default()` and `DrawSkyboxDesc::with_colors(nadir, zenith)`
with its two `Srgb` tint colors as rational triples. -/
inductive DrawGroup
  | Shaded
  | Skybox (nadir zenith : ℚ × ℚ × ℚ)
deriving DecidableEq, Repr

/-- Graph nodes: a subpass (its draw groups, color attachments and optional
depth-stencil attachment, as image indices) or a present node (the presented
image index and the node indices it depends on). -/
inductive GraphNode
  | Subpass (groups : List DrawGroup) (colors : List ℕ) (depth_stencil : Option ℕ)
  | Present (image : ℕ) (dependencies : List ℕ)
deriving DecidableEq, Repr

/-- Embeds `rendy::graph::GraphBuilder`: accumulated image resources and nodes.
`create_image` / `add_node` return the index of the added element. -/
structure GraphBuilder where
  images : List ImageDesc
  nodes : List GraphNode
deriving DecidableEq, Repr

/-- Embeds `GraphBuilder::new()`. -/
def GraphBuilder.new : GraphBuilder := ⟨[], []⟩

/-- Embeds `GraphBuilder::create_image`: appends the image, returns its index. -/
def GraphBuilder.create_image (gb : GraphBuilder) (kind levels : ℕ) (format : Format)
    (clear : Option ClearValue) : GraphBuilder × ℕ :=
  ({ gb with images := gb.images ++ [⟨kind, levels, format, clear⟩] }, gb.images.length)

/-- Embeds `GraphBuilder::add_node`: appends the node, returns its index. -/
def GraphBuilder.add_node (gb : GraphBuilder) (node : GraphNode) : GraphBuilder × ℕ :=
  ({ gb with nodes := gb.nodes ++ [node] }, gb.nodes.length)

/-- The rendering factory (`rendy::factory::Factory`), reduced to what the
example queries of it: the surface kind obtained from `surface.kind()` and
the surface's native pixel format returned by `get_surface_format`. -/
structure Factory where
  surface_kind : ℕ
  native_format : Format
deriving DecidableEq, Repr

/-- Embeds `ExampleGraph::builder`: constructs the render graph.  `window` is the
`ReadExpect<Arc<Window>>` resource (`none` models its absence, on which the
fetch panics — `Except.error`).  Besides the updated policy state and the
graph description, the result carries the number of `get_surface_format`
queries this call performed (`get_or_insert_with` queries exactly when the
cached `surface_format` is `None`). -/
def ExampleGraph.builder (g : ExampleGraph) (factory : Factory) (window : Option Unit) :
    Except String (ExampleGraph × GraphBuilder × ℕ) :=
  match window with
  | none => .error "Tried to fetch resource of type Window but the resource does not exist"
  | some _ =>
      let g1 := { g with dirty := false }
      let fmtq : Format × ℕ :=
        match g1.surface_format with
        | some fmt => (fmt, 0)
        | none => (factory.native_format, 1)
      let surface_format := fmtq.1
      let g2 := { g1 with surface_format := some surface_format }
      let gb0 := GraphBuilder.new
      let ci := gb0.create_image factory.surface_kind 1 surface_format
        (some (.Color (34/100) (36/100) (52/100) 1))
      let gb1 := ci.1
      let color := ci.2
      let di := gb1.create_image factory.surface_kind 1 .D32Sfloat
        (some (.DepthStencil 1 0))
      let gb2 := di.1
      let depth := di.2
      let oi := gb2.add_node (.Subpass
        [.Shaded, .Skybox (82/100, 51/100, 50/100) (18/100, 11/100, 85/100)]
        [color] (some depth))
      let gb3 := oi.1
      let opaquePass := oi.2
      let pr := gb3.add_node (.Present color [opaquePass])
      .ok (g2, pr.1, fmtq.2)

/-- Iterating `builder` (with the window present) `n` times on the same
factory, summing the numbers of surface-format queries performed. -/
def iterateBuilder (factory : Factory) : ℕ → ExampleGraph → ExampleGraph × ℕ
  | 0, g => (g, 0)
  | n + 1, g =>
      match g.builder factory (some ()) with
      | .ok (g1, _, q) =>
          let rest := iterateBuilder factory n g1
          (rest.1, q + rest.2)
      | .error _ => (g, 0)


/-- Whether an input event is a mouse-wheel event (the only variant the
`match` in `CameraDistanceSystem::run` acts on). -/
def isWheelEvent : InputEvent → Bool
  | .MouseWheelMoved _ => true
  | _ => false

lemma scaleEntity_comp (p q : ℚ) (e : Entity) :
    scaleEntity q (scaleEntity p e) = scaleEntity (p * q) e := by
  cases e with
  | mk tr tg => cases tr <;> cases tg <;> simp [scaleEntity, mul_assoc]

lemma scaleWorld_comp (p q : ℚ) (w : List Entity) :
    scaleWorld q (scaleWorld p w) = scaleWorld (p * q) w := by
  simp [scaleWorld, List.map_map, Function.comp_def, scaleEntity_comp]

lemma scaleEntity_one (e : Entity) : scaleEntity 1 e = e := by
  cases e with
  | mk tr tg => cases tr <;> cases tg <;> simp [scaleEntity]

lemma scaleWorld_one (w : List Entity) : scaleWorld 1 w = w := by
  induction w with
  | nil => rfl
  | cons e rest ih =>
      show scaleEntity 1 e :: scaleWorld 1 rest = e :: rest
      rw [scaleEntity_one, ih]

lemma foldl_processEvent_replicate (ev : InputEvent) (q : ℚ)
    (hev : ∀ v, processEvent ev v = scaleWorld q v) (n : ℕ) (w : List Entity) :
    (List.replicate n ev).foldl (fun acc e => processEvent e acc) w
      = scaleWorld (q ^ n) w := by
  induction n generalizing w with
  | zero => simp [scaleWorld_one]
  | succ k ih =>
      rw [List.replicate_succ, List.foldl_cons, hev, ih, scaleWorld_comp,
        ← pow_succ']

lemma processEvent_of_no_scroll (ev : InputEvent)
    (h : isWheelEvent ev = false) (w : List Entity) :
    processEvent ev w = w := by
  cases ev with
  | MouseWheelMoved d => simp [isWheelEvent] at h
  | _ => rfl

lemma foldl_processEvent_of_no_scroll (post : List InputEvent)
    (h : post.all (fun ev => !isWheelEvent ev) = true) (w : List Entity) :
    post.foldl (fun acc e => processEvent e acc) w = w := by
  induction post generalizing w with
  | nil => rfl
  | cons ev rest ih =>
      simp only [List.all_cons, Bool.and_eq_true, Bool.not_eq_true'] at h
      rw [List.foldl_cons, processEvent_of_no_scroll ev h.1]
      exact ih (by simpa using h.2) w

/-- C1: every drained scroll-up event multiplies `distance` by `0.9` on every
entity possessing both a `Transform` and the orbit-camera tag, every
scroll-down multiplies it by `1.1`; hence a run draining `n` scroll-ups
scales every such entity's distance by `0.9 ^ n` and a run draining `n`
scroll-downs scales it by `1.1 ^ n` (entities missing either component are
untouched by `scaleWorld`). -/
theorem camera_distance_scroll_scaling (n : ℕ) (pre : List InputEvent) (w : List Entity) :
    (∀ v, processEvent (InputEvent.MouseWheelMoved ScrollDirection.ScrollUp) v
        = scaleWorld (9/10) v) ∧
    (∀ v, processEvent (InputEvent.MouseWheelMoved ScrollDirection.ScrollDown) v
        = scaleWorld (11/10) v) ∧
    (CameraDistanceSystem.run ⟨some pre.length⟩
        ⟨pre ++ List.replicate n (InputEvent.MouseWheelMoved ScrollDirection.ScrollUp)⟩ w
      = Except.ok (⟨some (pre.length + n)⟩, scaleWorld ((9/10 : ℚ) ^ n) w)) ∧
    (CameraDistanceSystem.run ⟨some pre.length⟩
        ⟨pre ++ List.replicate n (InputEvent.MouseWheelMoved ScrollDirection.ScrollDown)⟩ w
      = Except.ok (⟨some (pre.length + n)⟩, scaleWorld ((11/10 : ℚ) ^ n) w)) ∧
    (∀ (q : ℚ) (i : ℕ) (e : Entity) (u : Unit) (t : ArcBallControlTag),
      w[i]? = some e → e.transform = some u → e.tag = some t →
      (scaleWorld q w)[i]? = some ⟨some u, some ⟨t.target, t.distance * q⟩⟩) := by
  refine ⟨fun v => rfl, fun v => rfl, ?_, ?_, ?_⟩
  · simp [CameraDistanceSystem.run, List.drop_left,
      foldl_processEvent_replicate (InputEvent.MouseWheelMoved ScrollDirection.ScrollUp)
        (9/10) (fun v => rfl) n w]
  · simp [CameraDistanceSystem.run, List.drop_left,
      foldl_processEvent_replicate (InputEvent.MouseWheelMoved ScrollDirection.ScrollDown)
        (11/10) (fun v => rfl) n w]
  · intro q i e u t hi htr htg
    rw [scaleWorld, List.getElem?_map, hi]
    cases e with
    | mk tr tg =>
        simp only at htr htg
        subst htr; subst htg
        rfl

/-- Witness for C1 at concrete inputs: one prior event, two scroll-ups, one
entity with both components and distance `5`. -/
theorem camera_distance_scroll_scaling_witness :
    (CameraDistanceSystem.run ⟨some 1⟩
        ⟨[InputEvent.KeyPressed]
          ++ List.replicate 2 (InputEvent.MouseWheelMoved ScrollDirection.ScrollUp)⟩
        [⟨some (), some ⟨7, 5⟩⟩]
      = Except.ok (⟨some (1 + 2)⟩, scaleWorld ((9/10 : ℚ) ^ 2) [⟨some (), some ⟨7, 5⟩⟩])) ∧
    (([⟨some (), some ⟨7, 5⟩⟩] : List Entity)[0]? = some ⟨some (), some ⟨7, 5⟩⟩) ∧
    ((scaleWorld (9/10 : ℚ) [⟨some (), some ⟨7, 5⟩⟩])[0]?
      = some ⟨some (), some ⟨7, (5 : ℚ) * (9/10)⟩⟩) :=
  ⟨(camera_distance_scroll_scaling 2 [InputEvent.KeyPressed] [⟨some (), some ⟨7, 5⟩⟩]).2.2.1,
   rfl,
   (camera_distance_scroll_scaling 2 [InputEvent.KeyPressed]
      [⟨some (), some ⟨7, 5⟩⟩]).2.2.2.2 (9/10) 0 ⟨some (), some ⟨7, 5⟩⟩ () ⟨7, 5⟩ rfl rfl rfl⟩

/-- C7: an invocation that drains no scroll events — whether it drains no new
events at all or only input variants other than mouse-wheel — returns the
world unchanged (only the reader cursor advances). -/
theorem camera_distance_non_scroll_no_change (pre post : List InputEvent) (w : List Entity)
    (hpost : post.all (fun ev => !isWheelEvent ev) = true) :
    (CameraDistanceSystem.run ⟨some pre.length⟩ ⟨pre ++ post⟩ w
      = Except.ok (⟨some (pre.length + post.length)⟩, w)) ∧
    (CameraDistanceSystem.run ⟨some pre.length⟩ ⟨pre⟩ w
      = Except.ok (⟨some pre.length⟩, w)) := by
  constructor
  · simp [CameraDistanceSystem.run, List.drop_left,
      foldl_processEvent_of_no_scroll post hpost w]
  · simp [CameraDistanceSystem.run, List.drop_length]

/-- Witness for C7: two prior events, two drained non-scroll events, one
tagged entity — the world is returned unchanged. -/
theorem camera_distance_non_scroll_no_change_witness :
    ([InputEvent.KeyPressed, InputEvent.MouseMoved].all
        (fun ev => !isWheelEvent ev) = true) ∧
    (CameraDistanceSystem.run ⟨some 2⟩
        ⟨[InputEvent.ButtonPressed, InputEvent.ActionPressed]
          ++ [InputEvent.KeyPressed, InputEvent.MouseMoved]⟩
        [⟨some (), some ⟨7, 5⟩⟩]
      = Except.ok (⟨some (2 + 2)⟩, [⟨some (), some ⟨7, 5⟩⟩])) :=
  ⟨by decide,
   (camera_distance_non_scroll_no_change
      [InputEvent.ButtonPressed, InputEvent.ActionPressed]
      [InputEvent.KeyPressed, InputEvent.MouseMoved]
      [⟨some (), some ⟨7, 5⟩⟩] (by decide)).1⟩

/-- C2: when the fetched dimensions differ from the last-observed ones
(including when exactly one side is `none`), the check sets the state to
dirty, records the fetched dimensions as last-observed, and reports `false`. -/
theorem rebuild_on_dimension_change (g : ExampleGraph) (nd : Option ScreenDimensions)
    (h : g.last_dimensions ≠ nd) :
    g.rebuild nd = ({ g with dirty := true, last_dimensions := nd }, false) := by
  simp [ExampleGraph.rebuild, h]

/-- Witness for C2: a fresh policy (last dimensions `none`) fetching
`(800, 600)` — exactly one side unavailable. -/
theorem rebuild_on_dimension_change_witness :
    (ExampleGraph.new.last_dimensions ≠ some ⟨800, 600⟩) ∧
    (ExampleGraph.new.rebuild (some ⟨800, 600⟩)
      = (⟨some ⟨800, 600⟩, none, true⟩, false)) :=
  ⟨by decide, rebuild_on_dimension_change ExampleGraph.new (some ⟨800, 600⟩) (by decide)⟩

lemma builder_eq (g : ExampleGraph) (f : Factory) :
    g.builder f (some ()) = Except.ok
      (⟨g.last_dimensions, some (g.surface_format.getD f.native_format), false⟩,
       ⟨[⟨f.surface_kind, 1, g.surface_format.getD f.native_format,
          some (ClearValue.Color (34/100) (36/100) (52/100) 1)⟩,
         ⟨f.surface_kind, 1, Format.D32Sfloat, some (ClearValue.DepthStencil 1 0)⟩],
        [GraphNode.Subpass
           [DrawGroup.Shaded,
            DrawGroup.Skybox (82/100, 51/100, 50/100) (18/100, 11/100, 85/100)]
           [0] (some 1),
         GraphNode.Present 0 [0]]⟩,
       if g.surface_format.isSome then 0 else 1) := by
  cases hs : g.surface_format <;>
    simp [ExampleGraph.builder, GraphBuilder.new, GraphBuilder.create_image,
      GraphBuilder.add_node, hs]

/-- C3: when the fetched dimensions equal the last-observed ones, the check
reports rebuild iff the state is dirty and leaves the state unchanged; the
graph construction invoked after a reported rebuild resets the policy to
stable (`dirty = false`). -/
theorem rebuild_on_stable_dimensions (g : ExampleGraph) (nd : Option ScreenDimensions)
    (h : g.last_dimensions = nd) :
    g.rebuild nd = (g, g.dirty) ∧
    (∀ (f : Factory) (g1 : ExampleGraph) (gb : GraphBuilder) (q : ℕ),
      (g.rebuild nd).1.builder f (some ()) = Except.ok (g1, gb, q) → g1.dirty = false) := by
  have hr : g.rebuild nd = (g, g.dirty) := by
    simp [ExampleGraph.rebuild, h]
  refine ⟨hr, ?_⟩
  intro f g1 gb q hok
  rw [hr, builder_eq] at hok
  obtain ⟨h1, -, -⟩ := Prod.mk.injEq .. ▸ Except.ok.inj hok
  rw [← h1]

/-- Witness for C3: a policy that has already observed `(800, 600)` and is
dirty; the check reports rebuild, and the subsequent construction clears the
dirty flag. -/
theorem rebuild_on_stable_dimensions_witness :
    ((ExampleGraph.mk (some ⟨800, 600⟩) none true).last_dimensions = some ⟨800, 600⟩) ∧
    ((ExampleGraph.mk (some ⟨800, 600⟩) none true).rebuild (some ⟨800, 600⟩)
        = (ExampleGraph.mk (some ⟨800, 600⟩) none true, true)) ∧
    ((ExampleGraph.mk (some ⟨800, 600⟩) (some Format.Bgra8Srgb) false).dirty = false) :=
  ⟨rfl,
   (rebuild_on_stable_dimensions (ExampleGraph.mk (some ⟨800, 600⟩) none true)
      (some ⟨800, 600⟩) rfl).1,
   (rebuild_on_stable_dimensions (ExampleGraph.mk (some ⟨800, 600⟩) none true)
      (some ⟨800, 600⟩) rfl).2 ⟨0, Format.Bgra8Srgb⟩
      ⟨some ⟨800, 600⟩, some Format.Bgra8Srgb, false⟩
      ⟨[⟨0, 1, Format.Bgra8Srgb, some (ClearValue.Color (34/100) (36/100) (52/100) 1)⟩,
        ⟨0, 1, Format.D32Sfloat, some (ClearValue.DepthStencil 1 0)⟩],
       [GraphNode.Subpass
          [DrawGroup.Shaded,
           DrawGroup.Skybox (82/100, 51/100, 50/100) (18/100, 11/100, 85/100)]
          [0] (some 1),
        GraphNode.Present 0 [0]]⟩
      1 rfl⟩

/-- Counterexample to C4: on the dimensions sequence
`[none, (800,600), (800,600), (1024,768), (1024,768)]` from the initial
state, the reported sequence is not `[false, false, true, false, true]` —
the first check compares `none` to the initial `none` last-observed value,
takes the unchanged branch and reports the initial dirty flag `true`. -/
theorem rebuild_scenario_claimed_sequence_false :
    rebuildSeq ExampleGraph.new
      [none, some ⟨800, 600⟩, some ⟨800, 600⟩, some ⟨1024, 768⟩, some ⟨1024, 768⟩]
      ≠ [false, false, true, false, true] := by decide

/-- C4 (amended): the dimensions sequence
`[none, (800,600), (800,600), (1024,768), (1024,768)]` from the initial
state yields the reported sequence `[true, false, true, false, true]`: the
first check, with dimensions still unavailable on both sides, reports the
initial dirty flag `true`; each resize reports `false` once and the
following stable check reports `true`. -/
theorem rebuild_scenario_reported_sequence :
    rebuildSeq ExampleGraph.new
      [none, some ⟨800, 600⟩, some ⟨800, 600⟩, some ⟨1024, 768⟩, some ⟨1024, 768⟩]
      = [true, false, true, false, true] := by decide

/-- C9: the rebuild check never clears the dirty flag (a dirty state stays
dirty); once the check reports `true` it leaves the state unchanged, so any
number of further checks with unchanged dimensions still report `true`; the
only operation resetting the flag is graph construction, whose resulting
state always has `dirty = false`. -/
theorem rebuild_never_clears_dirty (g : ExampleGraph) (nd : Option ScreenDimensions) :
    (g.dirty = true → ((g.rebuild nd).1).dirty = true) ∧
    ((g.rebuild nd).2 = true → ∀ k : ℕ, ((rebuildIter nd k g).rebuild nd).2 = true) ∧
    (∀ (f : Factory) (g1 : ExampleGraph) (gb : GraphBuilder) (q : ℕ),
      g.builder f (some ()) = Except.ok (g1, gb, q) → g1.dirty = false) := by
  refine ⟨?_, ?_, ?_⟩
  · intro hd
    by_cases h : g.last_dimensions = nd
    · simp [ExampleGraph.rebuild, h, hd]
    · simp [ExampleGraph.rebuild, h]
  · intro hrep
    have hEq : g.last_dimensions = nd := by
      by_contra h
      simp [ExampleGraph.rebuild, h] at hrep
    have hstate : g.rebuild nd = (g, g.dirty) := by
      simp [ExampleGraph.rebuild, hEq]
    have hfix : ∀ k : ℕ, rebuildIter nd k g = g := by
      intro k
      induction k with
      | zero => rfl
      | succ m ih =>
          show rebuildIter nd m (g.rebuild nd).1 = g
          rw [hstate]
          exact ih
    intro k
    rw [hfix k, hstate]
    rw [hstate] at hrep
    exact hrep
  · intro f g1 gb q hok
    rw [builder_eq] at hok
    obtain ⟨h1, -, -⟩ := Prod.mk.injEq .. ▸ Except.ok.inj hok
    rw [← h1]

/-- Witness for C9: the fresh policy checked against `none` dimensions —
it reports `true`, keeps reporting `true` after three further checks, stays
dirty, and a construction yields a stable state. -/
theorem rebuild_never_clears_dirty_witness :
    ((ExampleGraph.new.rebuild none).1.dirty = true) ∧
    ((rebuildIter none 3 ExampleGraph.new).rebuild none).2 = true ∧
    ((ExampleGraph.mk none (some Format.Bgra8Srgb) false).dirty = false) :=
  ⟨(rebuild_never_clears_dirty ExampleGraph.new none).1 rfl,
   (rebuild_never_clears_dirty ExampleGraph.new none).2.1 (by decide) 3,
   (rebuild_never_clears_dirty ExampleGraph.new none).2.2 ⟨0, Format.Bgra8Srgb⟩
     ⟨none, some Format.Bgra8Srgb, false⟩
     ⟨[⟨0, 1, Format.Bgra8Srgb, some (ClearValue.Color (34/100) (36/100) (52/100) 1)⟩,
       ⟨0, 1, Format.D32Sfloat, some (ClearValue.DepthStencil 1 0)⟩],
      [GraphNode.Subpass
         [DrawGroup.Shaded,
          DrawGroup.Skybox (82/100, 51/100, 50/100) (18/100, 11/100, 85/100)]
         [0] (some 1),
       GraphNode.Present 0 [0]]⟩
     1 rfl⟩

/-- C10: unavailable dimensions (`none`) compare equal to a last-observed
`none`: such a check takes the unchanged branch, leaves the state as it is
and returns the current dirty flag; in particular the very first check on a
fresh policy with dimensions still unavailable reports `true`. -/
theorem rebuild_unavailable_dimensions_equal (g : ExampleGraph)
    (h : g.last_dimensions = none) :
    g.rebuild none = (g, g.dirty) ∧
    ExampleGraph.new.rebuild none = (ExampleGraph.new, true) := by
  constructor
  · simp [ExampleGraph.rebuild, h]
  · decide

/-- Witness for C10: a stable policy that has never observed dimensions
returns `false` from a `none` check and is left unchanged. -/
theorem rebuild_unavailable_dimensions_equal_witness :
    ((ExampleGraph.mk none none false).last_dimensions = none) ∧
    ((ExampleGraph.mk none none false).rebuild none
        = (ExampleGraph.mk none none false, false)) ∧
    (ExampleGraph.new.rebuild none = (ExampleGraph.new, true)) :=
  ⟨rfl,
   (rebuild_unavailable_dimensions_equal (ExampleGraph.mk none none false) rfl).1,
   (rebuild_unavailable_dimensions_equal (ExampleGraph.mk none none false) rfl).2⟩

/-- C5: graph construction returns exactly two image resources — a color
target in the surface format cleared to RGBA (0.34, 0.36, 0.52, 1.0) and a
`D32Sfloat` depth target cleared to depth 1 / stencil 0 — one subpass node
whose draw groups are the shaded-opaque pass and the skybox pass (with its
two fixed tint colors), writing to the color target (image 0) and the depth
target (image 1), and a present node for the color target depending on the
subpass node (node 0); the resulting policy state has `dirty = false`. -/
theorem builder_graph_description (g : ExampleGraph) (f : Factory) :
    g.builder f (some ()) = Except.ok
      (⟨g.last_dimensions, some (g.surface_format.getD f.native_format), false⟩,
       ⟨[⟨f.surface_kind, 1, g.surface_format.getD f.native_format,
          some (ClearValue.Color (34/100) (36/100) (52/100) 1)⟩,
         ⟨f.surface_kind, 1, Format.D32Sfloat, some (ClearValue.DepthStencil 1 0)⟩],
        [GraphNode.Subpass
           [DrawGroup.Shaded,
            DrawGroup.Skybox (82/100, 51/100, 50/100) (18/100, 11/100, 85/100)]
           [0] (some 1),
         GraphNode.Present 0 [0]]⟩,
       if g.surface_format.isSome then 0 else 1) :=
  builder_eq g f

lemma iterateBuilder_of_some (f : Factory) (k : ℕ) (g : ExampleGraph)
    (h : g.surface_format.isSome = true) : (iterateBuilder f k g).2 = 0 := by
  induction k generalizing g with
  | zero => rfl
  | succ m ih =>
      simp only [iterateBuilder, builder_eq, h, if_true]
      simpa using ih ⟨g.last_dimensions, some (g.surface_format.getD f.native_format), false⟩ rfl

lemma iterateBuilder_queries (f : Factory) (k : ℕ) (g : ExampleGraph) :
    (iterateBuilder f k g).2
      = if k = 0 then 0 else if g.surface_format.isSome then 0 else 1 := by
  cases k with
  | zero => rfl
  | succ m =>
      simp only [iterateBuilder, builder_eq]
      rw [iterateBuilder_of_some f m
        ⟨g.last_dimensions, some (g.surface_format.getD f.native_format), false⟩ rfl]
      simp

/-- C6: across any number of repeated graph constructions on one policy, the
surface format is queried at most once in total; starting with no cached
format, one construction followed by any number of further constructions
performs exactly one query; with a format already cached, no construction
ever queries. -/
theorem surface_format_queried_at_most_once (g : ExampleGraph) (f : Factory) (k : ℕ) :
    ((iterateBuilder f k g).2 ≤ 1) ∧
    (g.surface_format = none → (iterateBuilder f (k + 1) g).2 = 1) ∧
    (∀ fmt : Format, g.surface_format = some fmt → (iterateBuilder f k g).2 = 0) := by
  refine ⟨?_, ?_, ?_⟩
  · rw [iterateBuilder_queries]
    split
    · exact Nat.zero_le 1
    · split <;> simp
  · intro h
    rw [iterateBuilder_queries]
    simp [h]
  · intro fmt h
    rw [iterateBuilder_queries]
    simp [h]

/-- Witness for C6: five constructions from a fresh policy query once; with
a cached format, five constructions query zero times. -/
theorem surface_format_queried_at_most_once_witness :
    ((iterateBuilder ⟨0, Format.Bgra8Srgb⟩ 5 ExampleGraph.new).2 ≤ 1) ∧
    (ExampleGraph.new.surface_format = none) ∧
    ((iterateBuilder ⟨0, Format.Bgra8Srgb⟩ (4 + 1) ExampleGraph.new).2 = 1) ∧
    ((iterateBuilder ⟨0, Format.Bgra8Srgb⟩ 5
        (ExampleGraph.mk none (some Format.Rgba8Srgb) true)).2 = 0) :=
  ⟨(surface_format_queried_at_most_once ExampleGraph.new ⟨0, Format.Bgra8Srgb⟩ 5).1,
   rfl,
   (surface_format_queried_at_most_once ExampleGraph.new ⟨0, Format.Bgra8Srgb⟩ 4).2.1 rfl,
   (surface_format_queried_at_most_once (ExampleGraph.mk none (some Format.Rgba8Srgb) true)
      ⟨0, Format.Bgra8Srgb⟩ 5).2.2 Format.Rgba8Srgb rfl⟩

/-- Counterexample to C8: an unavailable screen-dimensions resource during
the rebuild check is not a fatal precondition violation — the check uses
`try_fetch`, compares the resulting `none` with the last-observed value and
completes normally; here the fresh policy's check returns the state
unchanged and reports `true`. -/
theorem rebuild_unavailable_dimensions_not_fatal :
    ExampleGraph.new.rebuild none = (ExampleGraph.new, true) := by decide

/-- C8 (amended): absence of the window when constructing the graph and an
uninitialized event-reader cursor when the adjuster runs are fatal
(panicking) precondition violations; an unavailable screen-dimensions
resource during the rebuild check is instead handled gracefully: the check
completes normally in both the changed and unchanged cases. -/
theorem fatal_precondition_violations (g : ExampleGraph) (f : Factory)
    (sys : CameraDistanceSystem) (ch : EventChannel) (w : List Entity)
    (hsys : sys.event_reader = none) :
    (g.builder f none
      = Except.error "Tried to fetch resource of type Window but the resource does not exist") ∧
    (sys.run ch w = Except.error "called Option::unwrap on a None value") ∧
    (g.rebuild none
      = if g.last_dimensions = none then (g, g.dirty)
        else ({ g with dirty := true, last_dimensions := none }, false)) := by
  refine ⟨rfl, ?_, ?_⟩
  · simp [CameraDistanceSystem.run, hsys]
  · by_cases h : g.last_dimensions = none
    · simp [ExampleGraph.rebuild, h]
    · simp [ExampleGraph.rebuild, h]

/-- Witness for C8 (amended): a fresh system with no cursor and a fresh
policy with no window. -/
theorem fatal_precondition_violations_witness :
    (CameraDistanceSystem.new.event_reader = none) ∧
    (ExampleGraph.new.builder ⟨0, Format.Bgra8Srgb⟩ none
      = Except.error "Tried to fetch resource of type Window but the resource does not exist") ∧
    (CameraDistanceSystem.new.run ⟨[]⟩ []
      = Except.error "called Option::unwrap on a None value") :=
  ⟨rfl,
   (fatal_precondition_violations ExampleGraph.new ⟨0, Format.Bgra8Srgb⟩
      CameraDistanceSystem.new ⟨[]⟩ [] rfl).1,
   (fatal_precondition_violations ExampleGraph.new ⟨0, Format.Bgra8Srgb⟩
      CameraDistanceSystem.new ⟨[]⟩ [] rfl).2.1⟩
